import Mathlib

/-!
Verification development for `lablog.py`, a keystroke-driven session logger.
Python strings are embedded as `List Char` (ASCII-faithful: `str.strip`,
`str.upper`, `str.isdigit` are modelled on their ASCII behaviour, which covers
every string the program manipulates). Stateful methods of the `Logger` class
become explicit state-passing functions on a `Logger` structure; interactive
`input()` answers and timestamps are passed as parameters.
-/

set_option autoImplicit false

namespace LabLog

/-- Python `str` as a list of characters. -/
abbrev Str := List Char

/-- The ASCII whitespace characters stripped by Python's `str.strip()`. -/
def pyIsSpace (c : Char) : Bool :=
  c = ' ' || c = '\t' || c = '\n' || c = '\r' || c = '\x0b' || c = '\x0c'

/-- Remove trailing characters satisfying `p` (right half of `str.strip`). -/
def dropRightWhile (p : Char → Bool) (s : Str) : Str :=
  (s.reverse.dropWhile p).reverse

/-- Python `s.strip()`: remove leading and trailing whitespace. -/
def pyStrip (s : Str) : Str :=
  dropRightWhile pyIsSpace (s.dropWhile pyIsSpace)

/-- Python `s.upper()` (ASCII). -/
def pyUpper (s : Str) : Str := s.map Char.toUpper

/-- Decimal digit character for `d % 10`. -/
def digitChar (d : Nat) : Char :=
  match d with
  | 0 => '0' | 1 => '1' | 2 => '2' | 3 => '3' | 4 => '4'
  | 5 => '5' | 6 => '6' | 7 => '7' | 8 => '8' | _ => '9'

/-- Fuel-indexed accumulator loop producing the decimal digits of `n`. -/
def natToStrCore : Nat → Nat → Str → Str
  | 0, _, acc => acc
  | fuel + 1, n, acc =>
    if n < 10 then digitChar n :: acc
    else natToStrCore fuel (n / 10) (digitChar (n % 10) :: acc)

/-- Decimal rendering of a natural number, as Python's f-string `{n}` does. -/
def natToStr (n : Nat) : Str := natToStrCore (n + 1) n []

/-- `Logger.render_entry_text` (lablog.py:168-177): the recording-counter
rendering rule. Takes the current `recording_index` and the entry text,
returns the rendered text together with the updated index (the method
mutates `self.recording_index` before formatting). -/
def render_entry_text (idx : Nat) (text : Str) : Str × Nat :=
  let upper := pyUpper (pyStrip text)
  if upper = "START RECORDING".data then
    ("START RECORDING (REC ".data ++ natToStr (idx + 1) ++ ")".data, idx + 1)
  else if upper = "STOP RECORDING".data then
    (if idx > 0 then "STOP RECORDING (REC ".data ++ natToStr idx ++ ")".data
     else "STOP RECORDING (REC ?)".data, idx)
  else (text, idx)

/-- The rendered form of the n-th `START RECORDING` entry. -/
def startMsg (n : Nat) : Str :=
  "START RECORDING (REC ".data ++ natToStr n ++ ")".data

/-- The rendered form of a `STOP RECORDING` entry with positive counter `n`. -/
def stopMsg (n : Nat) : Str :=
  "STOP RECORDING (REC ".data ++ natToStr n ++ ")".data

/-- Rendering `k` successive `START RECORDING` entries starting from
recording index `idx`, collecting the rendered texts in order. -/
def renderStarts : Nat → Nat → List Str
  | 0, _ => []
  | k + 1, idx =>
    let r := render_entry_text idx ("START RECORDING".data)
    r.1 :: renderStarts k r.2

/-- A macro entry of the config: `{"key": ..., "label": ..., "text": ...}`.
`label` and `text` are `Option` because `m.get(...)` may return `None`. -/
structure MacroEntry where
  key : Str
  label : Option Str
  text : Option Str
deriving DecidableEq

/-- The merged runtime configuration (the recognized keys of
`DEFAULT_CONFIG`, lablog.py:9-32, each with its merged value). -/
structure Config where
  output_dir : Str
  macros : List MacroEntry
  tasks : List Str
  note_key : Str
  mark_key : Str
  liquid_key : Str
  undo_key : Str
  reload_key : Str
  stop_key : Str
  help_key : Str
  timestamp_format : Str
  line_time_format : Str
deriving DecidableEq

/-- `DEFAULT_CONFIG` (lablog.py:9-32). -/
def DEFAULT_CONFIG : Config where
  output_dir := "logs".data
  macros := [
    ⟨"1".data, some "START RECORDING".data, some "START RECORDING".data⟩,
    ⟨"2".data, some "STOP RECORDING".data, some "STOP RECORDING".data⟩,
    ⟨"3".data, some "START TASK".data, some "START TASK".data⟩,
    ⟨"4".data, some "STOP TASK".data, some "STOP TASK".data⟩,
    ⟨"5".data, some "FIX CAMERA".data, some "FIX CAMERA".data⟩,
    ⟨"6".data, some "PAUSE TASK".data, some "PAUSE TASK".data⟩,
    ⟨"7".data, some "RESUME TASK".data, some "RESUME TASK".data⟩,
    ⟨"8".data, some "ADJUST LIGHTING/CAMERA".data, some "ADJUST LIGHTING/CAMERA".data⟩,
    ⟨"9".data, some "SLEEPY".data, some "SLEEPY".data⟩]
  tasks := ["simple touch".data, "center out reach".data]
  note_key := "n".data
  mark_key := "m".data
  liquid_key := "l".data
  undo_key := "u".data
  reload_key := "r".data
  stop_key := "q".data
  help_key := "h".data
  timestamp_format := "%Y-%m-%d %H:%M:%S".data
  line_time_format := "%H:%M:%S".data

/-- A parsed, well-typed config file: each recognized key is present or
absent (unknown keys are ignored by the merge and so are not modelled).
A present `macros` key is list-typed here, matching the `isinstance` guard. -/
structure FileConfig where
  output_dir : Option Str
  macros : Option (List MacroEntry)
  tasks : Option (List Str)
  note_key : Option Str
  mark_key : Option Str
  liquid_key : Option Str
  undo_key : Option Str
  reload_key : Option Str
  stop_key : Option Str
  help_key : Option Str
  timestamp_format : Option Str
  line_time_format : Option Str
deriving DecidableEq

/-- The state of the config file on disk as seen by `load_config`:
missing, unreadable/malformed JSON, or successfully parsed. -/
inductive ConfigFile where
  | missing
  | malformed
  | valid (cfg : FileConfig)
deriving DecidableEq

/-- `load_config` (lablog.py:37-51): missing or malformed files yield the
defaults with flag `False`; otherwise recognized keys override the defaults
and a present list-typed `macros` key fully replaces the default macros. -/
def load_config : ConfigFile → Config × Bool
  | .missing => (DEFAULT_CONFIG, false)
  | .malformed => (DEFAULT_CONFIG, false)
  | .valid f =>
    ({ output_dir := f.output_dir.getD DEFAULT_CONFIG.output_dir
       macros := f.macros.getD DEFAULT_CONFIG.macros
       tasks := f.tasks.getD DEFAULT_CONFIG.tasks
       note_key := f.note_key.getD DEFAULT_CONFIG.note_key
       mark_key := f.mark_key.getD DEFAULT_CONFIG.mark_key
       liquid_key := f.liquid_key.getD DEFAULT_CONFIG.liquid_key
       undo_key := f.undo_key.getD DEFAULT_CONFIG.undo_key
       reload_key := f.reload_key.getD DEFAULT_CONFIG.reload_key
       stop_key := f.stop_key.getD DEFAULT_CONFIG.stop_key
       help_key := f.help_key.getD DEFAULT_CONFIG.help_key
       timestamp_format := f.timestamp_format.getD DEFAULT_CONFIG.timestamp_format
       line_time_format := f.line_time_format.getD DEFAULT_CONFIG.line_time_format },
     true)

/-- The mutable state of a `Logger` (lablog.py:93-101). `file_path` is the
chosen filename (`None` before `start_session`); `fileData` is the content
of the backing file on disk (meaningful once `file_path` is set). -/
structure Logger where
  config : Config
  config_loaded : Bool
  entries : List Str
  file_path : Option Str
  fileData : Str
  session_started : Bool
  recording_index : Nat
  current_task : Option Str
deriving DecidableEq

/-- Python `"\n".join(lines)`. -/
def joinNl : List Str → Str
  | [] => []
  | [l] => l
  | l :: l' :: ls => l ++ '\n' :: joinNl (l' :: ls)

/-- The file content written by `write_all`: `"\n".join(entries) + "\n"`. -/
def fileContentOf (entries : List Str) : Str := joinNl entries ++ "\n".data

/-- Python `s.split("\n")` (always returns at least one piece). -/
def splitNl : Str → List Str
  | [] => [[]]
  | c :: cs =>
    if c = '\n' then [] :: splitNl cs
    else
      match splitNl cs with
      | [] => [[c]]
      | l :: ls => (c :: l) :: ls

/-- Reading the file back as a list of lines (Python `splitlines` for
newline-terminated content): split on `'\n'` and drop one trailing empty
piece. -/
def readLines (s : Str) : List Str :=
  let ps := splitNl s
  if ps.getLast? = some [] then ps.dropLast else ps

/-- `Logger.write_all` (lablog.py:154-158): no-op without a file path,
otherwise rewrite the whole file from the in-memory entries. -/
def write_all (st : Logger) : Logger :=
  match st.file_path with
  | none => st
  | some _ => { st with fileData := fileContentOf st.entries }

/-- `Logger.append_entry` (lablog.py:160-166): render the text (updating
the recording counter), append the timestamped line, rewrite the file.
`ts` is the `self.tshort()` timestamp. Returns the new state and the line. -/
def append_entry (st : Logger) (ts text : Str) : Logger × Str :=
  let r := render_entry_text st.recording_index text
  let line := "- [".data ++ ts ++ "] ".data ++ r.1
  (write_all { st with entries := st.entries ++ [line], recording_index := r.2 }, line)

/-- A sequence of `append_entry` calls; each operation is a
(timestamp, text) pair. -/
def appendAll (st : Logger) (ops : List (Str × Str)) : Logger :=
  ops.foldl (fun s p => (append_entry s p.1 p.2).1) st

/-- The character class kept by `Logger.sanitize` (lablog.py:110). -/
def allowedChar (c : Char) : Bool :=
  c.isAlpha || c.isDigit || c = '-' || c = '_' || c = '.' || c = ' '

/-- `Logger.sanitize` (lablog.py:109-113): strip, replace disallowed
characters by `'_'`, strip again, replace spaces by `'_'`, and fall back
to `"unknown"` when the result is empty. -/
def sanitize (s : Str) : Str :=
  let cleaned := (pyStrip s).map (fun c => if allowedChar c then c else '_')
  let cleaned2 := (pyStrip cleaned).map (fun c => if c = ' ' then '_' else c)
  if cleaned2 = [] then "unknown".data else cleaned2

/-- The per-character effect of the whole sanitization pipeline: allowed
non-space characters are kept; spaces and disallowed characters become `'_'`. -/
def sanChar (c : Char) : Char :=
  if allowedChar c && !(c = ' ') then c else '_'

/-- Python `x or "N/A"` for the header fields of `start_session`. -/
def orNA (s : Str) : Str := if s = [] then "N/A".data else s

/-- One filename component of `start_session` (lablog.py:133-134):
the sanitized identifier, or the fixed fallback when the (stripped)
identifier is empty. -/
def namePart (s fallback : Str) : Str := if s ≠ [] then sanitize s else fallback

/-- The filename chosen by `start_session` (lablog.py:135):
`<YYMMDD>_<beh_part>_<animal_part>.md`. -/
def sessionFilename (file_date behaviorists animal_id : Str) : Str :=
  file_date ++ "_".data ++ namePart behaviorists ("behaviorists".data) ++ "_".data ++
    namePart animal_id ("animal".data) ++ ".md".data

/-- The header block written by `start_session` (lablog.py:138-148);
the identifier arguments are already stripped. -/
def sessionHeader (date_str behaviorists animal_id animal_weight notes tstart : Str) :
    List Str := [
  "# Session Log".data,
  "- Date: ".data ++ date_str,
  "- Behaviorist(s): ".data ++ orNA behaviorists,
  "- Simia: ".data ++ orNA animal_id,
  "- Weight: ".data ++ orNA animal_weight,
  "- Notes: ".data ++ orNA notes,
  "- Started: [".data ++ tstart ++ "]".data,
  [],
  "## Events".data]

/-- `Logger.start_session` (lablog.py:120-152). The four `input()` answers
are parameters (`*_raw`, stripped here as in the code), as are the three
clock readings `date_str` (`%Y-%m-%d`), `file_date` (`%y%m%d`) and
`tstart` (`self.tshort()`). Builds the filename from sanitized parts,
installs the header block as the entries, and writes the file. -/
def start_session (st : Logger) (date_str file_date : Str)
    (behaviorists_raw animal_raw weight_raw notes_raw tstart : Str) : Logger :=
  let behaviorists := pyStrip behaviorists_raw
  let animal_id := pyStrip animal_raw
  let animal_weight := pyStrip weight_raw
  let notes := pyStrip notes_raw
  let filename := sessionFilename file_date behaviorists animal_id
  let header := sessionHeader date_str behaviorists animal_id animal_weight notes tstart
  let st1 := write_all { st with file_path := some filename, entries := header }
  { st1 with session_started := true }

/-- An event line as recognized by `undo`: `line.startswith("- [")`. -/
def isEventLine (l : Str) : Bool := ("- [".data).isPrefixOf l

/-- The backwards scan of `Logger.undo` (lablog.py:191-196): remove the
last line that starts with `"- ["`, returning the remaining lines and the
removed line, or `none` when no such line exists. -/
def removeLastEvent : List Str → Option (List Str × Str)
  | [] => none
  | l :: ls =>
    match removeLastEvent ls with
    | some (ls2, r) => some (l :: ls2, r)
    | none => if isEventLine l then some (ls, l) else none

/-- `Logger.undo` (lablog.py:189-197): pop the most recent event line and
rewrite the file, reporting the removed line; report `none` (the printed
"Nothing to undo.") when no event line exists. -/
def undo (st : Logger) : Logger × Option Str :=
  match removeLastEvent st.entries with
  | some (es, r) => (write_all { st with entries := es }, some r)
  | none => (st, none)

/-- `Logger.reload_config` (lablog.py:203-204): unconditionally replace
the active config and flag with whatever `load_config` returns. -/
def reload_config (st : Logger) (file : ConfigFile) : Logger :=
  let r := load_config file
  { st with config := r.1, config_loaded := r.2 }

/-- The reload-key branch of `main` (lablog.py:316-319): reload the config
and print the single notice `"Config reloaded."` (the menu re-render is
display, not a notice). Returns the new state and the notices printed. -/
def reloadHandler (st : Logger) (file : ConfigFile) : Logger × List Str :=
  (reload_config st file, ["Config reloaded.".data])

/-- Python truthiness choice `a or b` for an optional string. -/
def pyOrStr (a : Option Str) (b : Str) : Str :=
  match a with
  | none => b
  | some s => if s = [] then b else s

/-- `text = m.get("text") or m.get("label") or ""` (lablog.py:329). -/
def effText (m : MacroEntry) : Str := pyOrStr m.text (pyOrStr m.label [])

/-- The liquid-type mapping of `prompt_liquid` (lablog.py:252-255):
`"1"` → `"water"`, `"2"` → `"diluted juice"`, anything else verbatim. -/
def mappedLiquidType (t : Str) : Str :=
  if t = "1".data then "water".data
  else if t = "2".data then "diluted juice".data
  else t

/-- `Logger.prompt_liquid` (lablog.py:244-260) as a function of the two
raw `input()` answers (stripped here as in the code). -/
def liquid_entry (amount_raw type_raw : Str) : Str :=
  let amount := pyStrip amount_raw
  let lt := mappedLiquidType (pyStrip type_raw)
  if amount ≠ [] ∧ lt ≠ [] then
    "LIQUID: ".data ++ amount ++ " mL (".data ++ lt ++ ")".data
  else if amount ≠ [] then "LIQUID: ".data ++ amount ++ " mL".data
  else "LIQUID".data

/-- Python `s.isdigit()` (ASCII digits; nonempty). -/
def pyIsDigit (s : Str) : Bool := !s.isEmpty && s.all Char.isDigit

/-- Python `int(s)` for a digit string. -/
def strToNat (s : Str) : Nat :=
  s.foldl (fun n c => n * 10 + (c.toNat - '0'.toNat)) 0

/-- `Logger.prompt_task` (lablog.py:226-238) as a function of the raw
`input()` answer: a numeric in-range answer selects from the task list,
anything else is the task name verbatim. -/
def prompt_task (tasks : List Str) (choice_raw : Str) : Str :=
  let choice := pyStrip choice_raw
  if pyIsDigit choice then
    let idx := strToNat choice
    if 1 ≤ idx ∧ idx ≤ tasks.length then tasks.getD (idx - 1) choice else choice
  else choice

/-- The macro lookup of `main`'s dispatch loop (lablog.py:327-328): the
first macro in list order whose key matches the pressed key. -/
def lookupKey (macros : List MacroEntry) (key : Str) : Option MacroEntry :=
  macros.find? (fun m => m.key = key)

/-- The macro-scan block of `main` (lablog.py:326-362), reached when the
pressed key matched none of the fixed command keys. `taskAnswer` and
`trialsAnswer` are the raw `input()` answers consumed by the `START TASK`
and `STOP TASK` handlers; `ts` is the timestamp of any appended line.
Returns the new state and the `matched` flag (`main` prints
`"Unknown key"` exactly when the flag is false, lablog.py:364-365). -/
def macroScan (st : Logger) (key taskAnswer trialsAnswer ts : Str) : Logger × Bool :=
  match lookupKey st.config.macros key with
  | none => (st, false)
  | some m =>
    let text := effText m
    let upper := pyUpper (pyStrip text)
    if upper = "START TASK".data then
      let task := prompt_task st.config.tasks taskAnswer
      if task ≠ [] then
        ((append_entry { st with current_task := some task } ts
            ("START TASK: ".data ++ task)).1, true)
      else (st, true)
    else if upper = "STOP TASK".data then
      let trials := pyStrip trialsAnswer
      let task_label := pyOrStr st.current_task ("UNKNOWN".data)
      let entryText :=
        if trials ≠ [] then
          "STOP TASK: ".data ++ task_label ++ " [".data ++ trials ++ "]".data
        else "STOP TASK: ".data ++ task_label
      ((append_entry st ts entryText).1, true)
    else if text ≠ [] then ((append_entry st ts text).1, true)
    else (st, true)

/-- The property that a string is a single line: it contains no newline. -/
def noNl (s : Str) : Prop := '\n' ∉ s

instance noNlDec (s : Str) : Decidable (noNl s) :=
  inferInstanceAs (Decidable ('\n' ∉ s))

/-- A concrete started-session state (default config, minimal header, open
file) used as the starting point of witnesses and counterexamples. -/
def baseState : Logger where
  config := DEFAULT_CONFIG
  config_loaded := true
  entries := ["## Events".data]
  file_path := some ("f.md".data)
  fileData := fileContentOf ["## Events".data]
  session_started := true
  recording_index := 0
  current_task := none

/-- A logger whose active configuration differs from the defaults (its
macro list is empty): the concrete input refuting claim C4. -/
def c4State : Logger :=
  { baseState with config := { DEFAULT_CONFIG with macros := [] } }

/-- A logger configured with two macros sharing the key `"x"`: the
concrete input refuting claim C6. -/
def c6State : Logger :=
  { baseState with config := { DEFAULT_CONFIG with macros := [
      ⟨"x".data, some ("A".data), some ("EVENT A".data)⟩,
      ⟨"x".data, some ("B".data), some ("EVENT B".data)⟩] } }

/-- A logger configured with a single macro that has a key but neither
text nor label: the concrete input witnessing C10. -/
def c10State : Logger :=
  { baseState with config := { DEFAULT_CONFIG with macros := [⟨"z".data, none, none⟩] } }

/-- The invariant of a started session: a file is open, the entries are a
nonempty list of newline-free lines, and the on-disk content is exactly
the joined entries with a trailing newline. -/
def goodState (st : Logger) : Prop :=
  st.file_path.isSome = true ∧ st.entries ≠ [] ∧ (∀ l ∈ st.entries, noNl l) ∧
    st.fileData = fileContentOf st.entries

/-! ## Helper lemmas -/

theorem write_all_entries (st : Logger) : (write_all st).entries = st.entries := by
  unfold write_all; cases h : st.file_path <;> simp

theorem write_all_file_path (st : Logger) :
    (write_all st).file_path = st.file_path := by
  unfold write_all; cases h : st.file_path <;> simp [h]

theorem write_all_config (st : Logger) : (write_all st).config = st.config := by
  unfold write_all; cases h : st.file_path <;> simp

theorem write_all_current_task (st : Logger) :
    (write_all st).current_task = st.current_task := by
  unfold write_all; cases h : st.file_path <;> simp

theorem write_all_recording_index (st : Logger) :
    (write_all st).recording_index = st.recording_index := by
  unfold write_all; cases h : st.file_path <;> simp

theorem write_all_fileData_some (st : Logger) (f : Str) (h : st.file_path = some f) :
    (write_all st).fileData = fileContentOf st.entries := by
  unfold write_all; rw [h]

theorem append_entry_line (st : Logger) (ts text : Str) :
    (append_entry st ts text).2 =
      "- [".data ++ ts ++ "] ".data ++ (render_entry_text st.recording_index text).1 := by
  rfl

theorem append_entry_entries (st : Logger) (ts text : Str) :
    ((append_entry st ts text).1).entries =
      st.entries ++ [(append_entry st ts text).2] := by
  unfold append_entry
  rw [write_all_entries]

theorem append_entry_file_path (st : Logger) (ts text : Str) :
    ((append_entry st ts text).1).file_path = st.file_path := by
  unfold append_entry
  rw [write_all_file_path]

theorem append_entry_config (st : Logger) (ts text : Str) :
    ((append_entry st ts text).1).config = st.config := by
  unfold append_entry
  rw [write_all_config]

theorem append_entry_current_task (st : Logger) (ts text : Str) :
    ((append_entry st ts text).1).current_task = st.current_task := by
  unfold append_entry
  rw [write_all_current_task]

theorem append_entry_recording_index (st : Logger) (ts text : Str) :
    ((append_entry st ts text).1).recording_index =
      (render_entry_text st.recording_index text).2 := by
  unfold append_entry
  rw [write_all_recording_index]

theorem append_entry_fileData (st : Logger) (ts text : Str) (f : Str)
    (h : st.file_path = some f) :
    ((append_entry st ts text).1).fileData =
      fileContentOf (((append_entry st ts text).1).entries) := by
  unfold append_entry
  rw [write_all_entries]
  exact write_all_fileData_some _ f h

theorem splitNl_ne_nil (s : Str) : splitNl s ≠ [] := by
  induction s with
  | nil => simp [splitNl]
  | cons c cs ih =>
    unfold splitNl
    by_cases h : c = '\n'
    · simp [h]
    · simp only [if_neg h]
      cases hs : splitNl cs with
      | nil => simp
      | cons l ls => simp

theorem splitNl_append_noNl (l s : Str) (h : noNl l) :
    splitNl (l ++ s) = (splitNl s).modifyHead (fun x => l ++ x) := by
  induction l with
  | nil =>
    cases hs : splitNl s with
    | nil => exact absurd hs (splitNl_ne_nil s)
    | cons p ps => simp [hs]
  | cons c cs ih =>
    have hc : ¬ c = '\n' := by
      intro he; exact h (he ▸ List.mem_cons_self c cs)
    have hcs : noNl cs := fun hm => h (List.mem_cons_of_mem c hm)
    cases hs : splitNl s with
    | nil => exact absurd hs (splitNl_ne_nil s)
    | cons p ps =>
      have ihh := ih hcs
      rw [hs] at ihh
      rw [List.cons_append]
      simp only [splitNl, if_neg hc, ihh, hs]
      simp [List.modifyHead]

theorem splitNl_fileContent (ls : List Str) (hne : ls ≠ [])
    (h : ∀ l ∈ ls, noNl l) : splitNl (fileContentOf ls) = ls ++ [[]] := by
  induction ls with
  | nil => exact absurd rfl hne
  | cons l ls ih =>
    cases ls with
    | nil =>
      have hl : noNl l := h l (List.mem_cons_self l [])
      show splitNl (l ++ "\n".data) = [l, []]
      rw [splitNl_append_noNl l ("\n".data) hl]
      rw [show ("\n".data : Str) = ['\n'] from rfl]
      simp [splitNl, List.modifyHead]
    | cons l2 ls2 =>
      have hl : noNl l := h l (List.mem_cons_self _ _)
      have hrest : ∀ x ∈ l2 :: ls2, noNl x := fun x hx =>
        h x (List.mem_cons_of_mem l hx)
      have hrec := ih (by simp) hrest
      show splitNl ((l ++ '\n' :: joinNl (l2 :: ls2)) ++ "\n".data) = _
      rw [List.append_assoc, List.cons_append,
        splitNl_append_noNl l ('\n' :: (joinNl (l2 :: ls2) ++ "\n".data)) hl]
      show ([] :: splitNl (joinNl (l2 :: ls2) ++ "\n".data)).modifyHead _ = _
      rw [show joinNl (l2 :: ls2) ++ "\n".data = fileContentOf (l2 :: ls2) from rfl, hrec]
      simp

theorem readLines_fileContent (ls : List Str) (hne : ls ≠ [])
    (h : ∀ l ∈ ls, noNl l) : readLines (fileContentOf ls) = ls := by
  unfold readLines
  rw [splitNl_fileContent ls hne h]
  simp

theorem noNl_append {a b : Str} : noNl (a ++ b) ↔ noNl a ∧ noNl b := by
  unfold noNl
  simp [List.mem_append, not_or]

theorem digitChar_ne_nl (d : Nat) : digitChar d ≠ '\n' := by
  unfold digitChar
  split <;> decide

theorem natToStrCore_noNl (fuel : Nat) :
    ∀ (n : Nat) (acc : Str), noNl acc → noNl (natToStrCore fuel n acc) := by
  induction fuel with
  | zero => intro n acc h; exact h
  | succ fuel ih =>
    intro n acc h
    unfold natToStrCore
    have hcons : ∀ d, noNl (digitChar d :: acc) := by
      intro d hm
      rcases List.mem_cons.mp hm with he | hm2
      · exact digitChar_ne_nl d he.symm
      · exact h hm2
    by_cases hn : n < 10
    · simpa [if_pos hn] using hcons n
    · simpa [if_neg hn] using ih (n / 10) _ (hcons (n % 10))

theorem natToStr_noNl (n : Nat) : noNl (natToStr n) :=
  natToStrCore_noNl _ _ _ (by simp [noNl])

theorem render_start (idx : Nat) (text : Str)
    (h : pyUpper (pyStrip text) = "START RECORDING".data) :
    render_entry_text idx text = (startMsg (idx + 1), idx + 1) := by
  unfold render_entry_text startMsg
  rw [h]
  simp

theorem render_stop_pos (idx : Nat) (text : Str)
    (h : pyUpper (pyStrip text) = "STOP RECORDING".data) (hidx : 0 < idx) :
    render_entry_text idx text = (stopMsg idx, idx) := by
  unfold render_entry_text stopMsg
  rw [h]
  have hne : ¬ (("STOP RECORDING".data : Str) = "START RECORDING".data) := by decide
  simp [hne, hidx]

theorem render_stop_zero (text : Str)
    (h : pyUpper (pyStrip text) = "STOP RECORDING".data) :
    render_entry_text 0 text = ("STOP RECORDING (REC ?)".data, 0) := by
  unfold render_entry_text
  rw [h]
  have hne : ¬ (("STOP RECORDING".data : Str) = "START RECORDING".data) := by decide
  simp [hne]

theorem render_other (idx : Nat) (text : Str)
    (h1 : ¬ pyUpper (pyStrip text) = "START RECORDING".data)
    (h2 : ¬ pyUpper (pyStrip text) = "STOP RECORDING".data) :
    render_entry_text idx text = (text, idx) := by
  unfold render_entry_text
  simp [h1, h2]

theorem render_noNl (idx : Nat) (text : Str) (h : noNl text) :
    noNl (render_entry_text idx text).1 := by
  by_cases h1 : pyUpper (pyStrip text) = "START RECORDING".data
  · rw [render_start idx text h1]
    unfold startMsg
    rw [noNl_append, noNl_append]
    exact ⟨⟨by decide, natToStr_noNl _⟩, by decide⟩
  by_cases h2 : pyUpper (pyStrip text) = "STOP RECORDING".data
  · by_cases hidx : 0 < idx
    · rw [render_stop_pos idx text h2 hidx]
      unfold stopMsg
      rw [noNl_append, noNl_append]
      exact ⟨⟨by decide, natToStr_noNl _⟩, by decide⟩
    · have : idx = 0 := by omega
      subst this
      rw [render_stop_zero text h2]
      decide
  · rw [render_other idx text h1 h2]
    exact h

theorem mem_pyStrip {c : Char} {s : Str} (h : c ∈ pyStrip s) : c ∈ s := by
  unfold pyStrip dropRightWhile at h
  rw [List.mem_reverse] at h
  have h2 := (List.dropWhile_sublist _).subset h
  rw [List.mem_reverse] at h2
  exact (List.dropWhile_sublist _).subset h2

theorem noNl_pyStrip {s : Str} (h : noNl s) : noNl (pyStrip s) :=
  fun hm => h (mem_pyStrip hm)

theorem noNl_orNA {s : Str} (h : noNl s) : noNl (orNA s) := by
  unfold orNA
  by_cases he : s = []
  · simp only [if_pos he]; decide
  · simpa [he] using h

theorem append_entry_good (st : Logger) (ts text : Str) (hts : noNl ts)
    (htext : noNl text) (h : goodState st) :
    goodState ((append_entry st ts text).1) := by
  obtain ⟨hfp, hne, hlines, _⟩ := h
  obtain ⟨f, hf⟩ := Option.isSome_iff_exists.mp hfp
  refine ⟨?_, ?_, ?_, ?_⟩
  · rw [append_entry_file_path, hf]; rfl
  · rw [append_entry_entries]; simp
  · rw [append_entry_entries]
    intro l hl
    rcases List.mem_append.mp hl with h1 | h2
    · exact hlines l h1
    · rw [List.mem_singleton.mp h2, append_entry_line]
      rw [noNl_append, noNl_append, noNl_append]
      exact ⟨⟨⟨by decide, hts⟩, by decide⟩, render_noNl _ _ htext⟩
  · exact append_entry_fileData st ts text f hf

theorem appendAll_good (ops : List (Str × Str)) :
    ∀ st : Logger, goodState st → (∀ p ∈ ops, noNl p.1 ∧ noNl p.2) →
      goodState (appendAll st ops) := by
  induction ops with
  | nil => intro st h _; exact h
  | cons p ops ih =>
    intro st h hops
    have hp := hops p (List.mem_cons_self _ _)
    have hrest : ∀ q ∈ ops, noNl q.1 ∧ noNl q.2 := fun q hq =>
      hops q (List.mem_cons_of_mem p hq)
    show goodState (appendAll ((append_entry st p.1 p.2).1) ops)
    exact ih _ (append_entry_good st p.1 p.2 hp.1 hp.2 h) hrest

theorem start_session_eq (st : Logger) (date_str file_date br ar wr nr tstart : Str) :
    start_session st date_str file_date br ar wr nr tstart =
      { st with
        file_path := some (sessionFilename file_date (pyStrip br) (pyStrip ar)),
        entries := sessionHeader date_str (pyStrip br) (pyStrip ar)
          (pyStrip wr) (pyStrip nr) tstart,
        fileData := fileContentOf (sessionHeader date_str (pyStrip br) (pyStrip ar)
          (pyStrip wr) (pyStrip nr) tstart),
        session_started := true } :=
  rfl

theorem sessionHeader_noNl (date_str behaviorists animal_id animal_weight notes tstart : Str)
    (h1 : noNl date_str) (h2 : noNl behaviorists) (h3 : noNl animal_id)
    (h4 : noNl animal_weight) (h5 : noNl notes) (h6 : noNl tstart) :
    ∀ l ∈ sessionHeader date_str behaviorists animal_id animal_weight notes tstart, noNl l := by
  intro l hl
  unfold sessionHeader at hl
  simp only [List.mem_cons] at hl
  rcases hl with rfl | rfl | rfl | rfl | rfl | rfl | rfl | rfl | rfl | h
  · decide
  · exact noNl_append.mpr ⟨by decide, h1⟩
  · exact noNl_append.mpr ⟨by decide, noNl_orNA h2⟩
  · exact noNl_append.mpr ⟨by decide, noNl_orNA h3⟩
  · exact noNl_append.mpr ⟨by decide, noNl_orNA h4⟩
  · exact noNl_append.mpr ⟨by decide, noNl_orNA h5⟩
  · exact noNl_append.mpr ⟨noNl_append.mpr ⟨by decide, h6⟩, by decide⟩
  · decide
  · decide
  · exact absurd h (List.not_mem_nil l)

theorem start_session_good (st : Logger) (date_str file_date br ar wr nr tstart : Str)
    (h1 : noNl date_str) (h2 : noNl br) (h3 : noNl ar) (h4 : noNl wr)
    (h5 : noNl nr) (h6 : noNl tstart) :
    goodState (start_session st date_str file_date br ar wr nr tstart) := by
  rw [start_session_eq]
  refine ⟨rfl, by simp [sessionHeader], ?_, rfl⟩
  exact sessionHeader_noNl _ _ _ _ _ _ h1 (noNl_pyStrip h2) (noNl_pyStrip h3)
    (noNl_pyStrip h4) (noNl_pyStrip h5) h6

theorem dropRightWhile_eq_rdropWhile (p : Char → Bool) (s : Str) :
    dropRightWhile p s = List.rdropWhile p s := rfl

theorem pyStrip_head_not_space (c : Char) (s : Str) (h : pyIsSpace c = false) :
    pyStrip (c :: s) = List.rdropWhile pyIsSpace (c :: s) := by
  unfold pyStrip
  rw [dropRightWhile_eq_rdropWhile]
  congr 1
  simp [List.dropWhile_cons, h]

theorem stopTask_strip_front (z : Str) :
    pyStrip ("STOP TASK: ".data ++ z) <+: "STOP TASK: ".data ++ z := by
  rw [show ("STOP TASK: ".data ++ z : Str) = 'S' :: ("TOP TASK: ".data ++ z) from rfl]
  rw [pyStrip_head_not_space _ _ (by decide)]
  exact List.rdropWhile_prefix _ _

theorem stopTask_upper_front (z : Str) :
    pyUpper (pyStrip ("STOP TASK: ".data ++ z)) <+: "STOP TASK: ".data ++ pyUpper z := by
  unfold pyUpper
  have h0 := (stopTask_strip_front z).map Char.toUpper
  rw [List.map_append] at h0
  rw [show List.map Char.toUpper ("STOP TASK: ".data) = "STOP TASK: ".data from by decide] at h0
  exact h0

theorem render_entry_stopTask (idx : Nat) (z : Str) :
    render_entry_text idx ("STOP TASK: ".data ++ z) = ("STOP TASK: ".data ++ z, idx) := by
  have hpre2 := stopTask_upper_front z
  apply render_other
  · intro h
    rw [h] at hpre2
    obtain ⟨t, ht⟩ := hpre2
    have hx : ("START RECORDING".data ++ t)[2]? =
        ("STOP TASK: ".data ++ pyUpper z)[2]? := by rw [ht]
    rw [List.getElem?_append_left (by decide),
      List.getElem?_append_left (by decide)] at hx
    exact absurd hx (by decide)
  · intro h
    rw [h] at hpre2
    obtain ⟨t, ht⟩ := hpre2
    have hx : ("STOP RECORDING".data ++ t)[5]? =
        ("STOP TASK: ".data ++ pyUpper z)[5]? := by rw [ht]
    rw [List.getElem?_append_left (by decide),
      List.getElem?_append_left (by decide)] at hx
    exact absurd hx (by decide)

theorem isPrefixOf_append (l r : Str) : l.isPrefixOf (l ++ r) = true := by
  induction l with
  | nil => simp [List.isPrefixOf]
  | cons a l ih => simp [List.isPrefixOf, ih]

theorem isEventLine_append_line (ts rest : Str) :
    isEventLine ("- [".data ++ ts ++ "] ".data ++ rest) = true := by
  unfold isEventLine
  rw [List.append_assoc, List.append_assoc]
  exact isPrefixOf_append _ _

theorem removeLastEvent_concat (x : Str) (hx : isEventLine x = true) :
    ∀ l : List Str, removeLastEvent (l ++ [x]) = some (l, x) := by
  intro l
  induction l with
  | nil => simp [removeLastEvent, hx]
  | cons a l ih => simp [removeLastEvent, ih]

theorem removeLastEvent_none (ls : List Str) (h : ∀ l ∈ ls, isEventLine l = false) :
    removeLastEvent ls = none := by
  induction ls with
  | nil => rfl
  | cons a ls ih =>
    have ha := h a (List.mem_cons_self _ _)
    have hrest := ih (fun l hl => h l (List.mem_cons_of_mem a hl))
    simp [removeLastEvent, hrest, ha]

theorem undo_of_concat (st : Logger) (l : List Str) (x : Str)
    (hx : isEventLine x = true) (he : st.entries = l ++ [x]) :
    (undo st).1.entries = l ∧ (undo st).2 = some x := by
  unfold undo
  rw [he, removeLastEvent_concat x hx l]
  exact ⟨write_all_entries _, rfl⟩

theorem undo_of_no_event (st : Logger) (h : ∀ l ∈ st.entries, isEventLine l = false) :
    undo st = (st, none) := by
  unfold undo
  rw [removeLastEvent_none _ h]

theorem lookupKey_cons_pos (m : MacroEntry) (ms : List MacroEntry) (key : Str)
    (h : m.key = key) : lookupKey (m :: ms) key = some m := by
  unfold lookupKey
  exact List.find?_cons_of_pos _ (by simp [h])

theorem lookupKey_cons_neg (m : MacroEntry) (ms : List MacroEntry) (key : Str)
    (h : ¬ m.key = key) : lookupKey (m :: ms) key = lookupKey ms key := by
  unfold lookupKey
  exact List.find?_cons_of_neg _ (by simp [h])

theorem lookupKey_first (ms1 : List MacroEntry) (m : MacroEntry)
    (ms2 : List MacroEntry) (key : Str)
    (h1 : ∀ m' ∈ ms1, ¬ m'.key = key) (h2 : m.key = key) :
    lookupKey (ms1 ++ m :: ms2) key = some m := by
  induction ms1 with
  | nil => exact lookupKey_cons_pos m ms2 key h2
  | cons a ms ih =>
    rw [List.cons_append, lookupKey_cons_neg a _ key (h1 a (List.mem_cons_self _ _))]
    exact ih (fun m' hm => h1 m' (List.mem_cons_of_mem a hm))

theorem renderStarts_eq (N : Nat) :
    ∀ idx, renderStarts N idx = (List.range' (idx + 1) N).map startMsg := by
  induction N with
  | zero => intro idx; rfl
  | succ N ih =>
    intro idx
    unfold renderStarts
    rw [render_start idx _ (by decide), List.range'_succ]
    simp only [List.map_cons]
    exact congrArg _ (ih (idx + 1))

theorem append_entry_stopTask (st : Logger) (ts z : Str) :
    ((append_entry st ts ("STOP TASK: ".data ++ z)).1).entries =
      st.entries ++ ["- [".data ++ ts ++ "] ".data ++ ("STOP TASK: ".data ++ z)] ∧
    ((append_entry st ts ("STOP TASK: ".data ++ z)).1).recording_index =
      st.recording_index := by
  constructor
  · rw [append_entry_entries, append_entry_line, render_entry_stopTask]
  · rw [append_entry_recording_index, render_entry_stopTask]

theorem prefix_cons_eq {l2 : Str} (c : Char) (rest : Str)
    (h : (c :: rest) <+: l2) : ∃ rest2, l2 = c :: rest2 := by
  obtain ⟨r, hr⟩ := h
  exact ⟨rest ++ r, by rw [← hr]; simp⟩

theorem pyStrip_prefix_dropWhile (s : Str) :
    pyStrip s <+: s.dropWhile pyIsSpace := by
  unfold pyStrip
  rw [dropRightWhile_eq_rdropWhile]
  exact List.rdropWhile_prefix _ _

theorem pyStrip_head_false (s : Str) (c : Char) (rest : Str)
    (h : pyStrip s = c :: rest) : pyIsSpace c = false := by
  have hpre := pyStrip_prefix_dropWhile s
  rw [h] at hpre
  obtain ⟨rest2, h2⟩ := prefix_cons_eq c rest hpre
  have hne : s.dropWhile pyIsSpace ≠ [] := by rw [h2]; simp
  have h3 := List.head_dropWhile_not pyIsSpace s hne
  simp only [h2, List.head_cons] at h3
  exact h3

theorem pyStrip_getLast_false (s : Str) (h : pyStrip s ≠ []) :
    pyIsSpace ((pyStrip s).getLast h) = false := by
  have h' : List.rdropWhile pyIsSpace (s.dropWhile pyIsSpace) ≠ [] := h
  have h3 := List.rdropWhile_last_not pyIsSpace (s.dropWhile pyIsSpace) h'
  exact Bool.eq_false_iff.mpr h3

theorem pyStrip_eq_self (l : Str)
    (hhead : ∀ h : l ≠ [], pyIsSpace (l.head h) = false)
    (hlast : ∀ h : l ≠ [], pyIsSpace (l.getLast h) = false) :
    pyStrip l = l := by
  by_cases hl : l = []
  · rw [hl]; rfl
  · have hd : l.dropWhile pyIsSpace = l := by
      cases l with
      | nil => rfl
      | cons a rest =>
        have ha := hhead (by simp)
        simp only [List.head_cons] at ha
        simp [List.dropWhile_cons, ha]
    unfold pyStrip
    rw [hd, dropRightWhile_eq_rdropWhile]
    exact List.rdropWhile_eq_self_iff.mpr (fun hne => by simp [hlast hne])

theorem sanitize_eq (s : Str) :
    sanitize s = if pyStrip s = [] then "unknown".data
      else (pyStrip s).map sanChar := by
  by_cases h : pyStrip s = []
  · rw [if_pos h]
    simp only [sanitize]
    rw [h]
    rfl
  · rw [if_neg h]
    simp only [sanitize]
    obtain ⟨c, rest, hc⟩ : ∃ c rest, pyStrip s = c :: rest := by
      cases hh : pyStrip s with
      | nil => exact absurd hh h
      | cons a b => exact ⟨a, b, rfl⟩
    have hm1ns : ∀ x : Char, pyIsSpace x = false →
        pyIsSpace (if allowedChar x then x else '_') = false := by
      intro x hx
      by_cases ha : allowedChar x
      · simpa [ha] using hx
      · simp only [if_neg ha]; decide
    have hself : pyStrip ((pyStrip s).map
        (fun x => if allowedChar x then x else '_')) =
        (pyStrip s).map (fun x => if allowedChar x then x else '_') := by
      apply pyStrip_eq_self
      · intro hh
        simp only [hc, List.map_cons, List.head_cons]
        exact hm1ns c (pyStrip_head_false s c rest hc)
      · intro hh
        rw [List.getLast_map _ (pyStrip s) hh]
        exact hm1ns _ (pyStrip_getLast_false s h)
    rw [hself, List.map_map]
    have hne2 : (pyStrip s).map
        ((fun x => if x = ' ' then '_' else x) ∘
          fun x => if allowedChar x then x else '_') ≠ [] := by
      simp [h]
    rw [if_neg hne2]
    apply List.map_congr_left
    intro x _
    by_cases ha : allowedChar x
    · by_cases hs : x = ' '
      · simp [sanChar, Function.comp, ha, hs]
      · simp [sanChar, Function.comp, ha, hs]
    · have hus : ¬ ('_' : Char) = ' ' := by decide
      simp [sanChar, Function.comp, ha, hus]

/-! ## Claims -/

/-- C1: a text whose trimmed upper-cased form is `START RECORDING` renders
as `START RECORDING (REC <n>)` with `n` the post-increment counter; a text
whose trimmed upper-cased form is `STOP RECORDING` renders with the
current counter unchanged when positive and as `REC ?` at counter zero;
every other text is returned verbatim with the counter unchanged; and
rendering `N` successive starts from a fresh counter yields the indices
`1..N` in order. -/
theorem C1_recording_render :
    (∀ (text : Str) (idx : Nat), pyUpper (pyStrip text) = "START RECORDING".data →
      render_entry_text idx text = (startMsg (idx + 1), idx + 1)) ∧
    (∀ (text : Str) (idx : Nat), pyUpper (pyStrip text) = "STOP RECORDING".data →
      0 < idx → render_entry_text idx text = (stopMsg idx, idx)) ∧
    (∀ text : Str, pyUpper (pyStrip text) = "STOP RECORDING".data →
      render_entry_text 0 text = ("STOP RECORDING (REC ?)".data, 0)) ∧
    (∀ (text : Str) (idx : Nat), pyUpper (pyStrip text) ≠ "START RECORDING".data →
      pyUpper (pyStrip text) ≠ "STOP RECORDING".data →
      render_entry_text idx text = (text, idx)) ∧
    (∀ N : Nat, renderStarts N 0 = (List.range' 1 N).map startMsg) :=
  ⟨fun text idx h => render_start idx text h,
   fun text idx h hp => render_stop_pos idx text h hp,
   render_stop_zero,
   fun text idx h1 h2 => render_other idx text h1 h2,
   fun N => renderStarts_eq N 0⟩

/-- Witness for C1 at concrete inputs. -/
theorem C1_recording_render_witness :
    render_entry_text 0 ("  start recording ".data) = (startMsg 1, 1) ∧
    render_entry_text 2 ("STOP RECORDING".data) = (stopMsg 2, 2) ∧
    render_entry_text 0 ("stop recording".data) = ("STOP RECORDING (REC ?)".data, 0) ∧
    render_entry_text 5 ("FIX CAMERA".data) = ("FIX CAMERA".data, 5) :=
  ⟨C1_recording_render.1 _ 0 (by decide),
   C1_recording_render.2.1 _ 2 (by decide) (by decide),
   C1_recording_render.2.2.1 _ (by decide),
   C1_recording_render.2.2.2.1 _ 5 (by decide) (by decide)⟩

/-- C2: for every sequence of appends on a started session (all appended
texts and timestamps being single lines, as produced by `input().strip()`
and `strftime`), the on-disk content equals the in-memory lines joined by
newlines with a single trailing newline, and re-reading the file's lines
yields exactly the in-memory lines. Quantifying over the whole operation
list covers the state after each individual append. -/
theorem C2_append_persist_round_trip
    (st0 : Logger) (date_str file_date br ar wr nr ts0 : Str)
    (ops : List (Str × Str))
    (h1 : noNl date_str) (h2 : noNl br) (h3 : noNl ar) (h4 : noNl wr)
    (h5 : noNl nr) (h6 : noNl ts0)
    (hops : ∀ p ∈ ops, noNl p.1 ∧ noNl p.2) :
    (appendAll (start_session st0 date_str file_date br ar wr nr ts0) ops).fileData =
      fileContentOf
        (appendAll (start_session st0 date_str file_date br ar wr nr ts0) ops).entries ∧
    readLines
        (appendAll (start_session st0 date_str file_date br ar wr nr ts0) ops).fileData =
      (appendAll (start_session st0 date_str file_date br ar wr nr ts0) ops).entries := by
  have hg := appendAll_good ops _
    (start_session_good st0 date_str file_date br ar wr nr ts0 h1 h2 h3 h4 h5 h6) hops
  obtain ⟨_, hne, hlines, hfile⟩ := hg
  refine ⟨hfile, ?_⟩
  rw [hfile]
  exact readLines_fileContent _ hne hlines

/-- Witness for C2 at concrete inputs. -/
theorem C2_append_persist_round_trip_witness :
    (appendAll (start_session baseState ("2026-10-12".data) ("261012".data)
        ("Jane".data) ("M1".data) ("8.2".data) [] ("10:00:00".data))
        [(("10:00:01".data), ("note one".data))]).fileData =
      fileContentOf
        (appendAll (start_session baseState ("2026-10-12".data) ("261012".data)
          ("Jane".data) ("M1".data) ("8.2".data) [] ("10:00:00".data))
          [(("10:00:01".data), ("note one".data))]).entries ∧
    readLines
        (appendAll (start_session baseState ("2026-10-12".data) ("261012".data)
          ("Jane".data) ("M1".data) ("8.2".data) [] ("10:00:00".data))
          [(("10:00:01".data), ("note one".data))]).fileData =
      (appendAll (start_session baseState ("2026-10-12".data) ("261012".data)
        ("Jane".data) ("M1".data) ("8.2".data) [] ("10:00:00".data))
        [(("10:00:01".data), ("note one".data))]).entries :=
  C2_append_persist_round_trip baseState _ _ _ _ _ _ _ _
    (by decide) (by decide) (by decide) (by decide) (by decide) (by decide) (by decide)

/-- C3: on a line list of non-event header lines followed by event lines,
`undo` removes exactly the most recent event line and never a header line;
appending any entry and undoing restores the prior line sequence, with the
removed line reported; and when no event line exists, `undo` is a no-op
that reports `none`, no matter how often it is repeated. -/
theorem C3_undo_exact_inverse :
    (∀ (st : Logger) (hs es : List Str), st.entries = hs ++ es →
      (∀ l ∈ hs, isEventLine l = false) → (∀ l ∈ es, isEventLine l = true) →
      ∀ hne : es ≠ [],
        (undo st).1.entries = hs ++ es.dropLast ∧
        (undo st).2 = some (es.getLast hne)) ∧
    (∀ (st : Logger) (ts text : Str),
      (undo ((append_entry st ts text).1)).1.entries = st.entries ∧
      (undo ((append_entry st ts text).1)).2 = some ((append_entry st ts text).2)) ∧
    (∀ st : Logger, (∀ l ∈ st.entries, isEventLine l = false) →
      undo st = (st, none) ∧ ∀ n : Nat, (fun s : Logger => (undo s).1)^[n] st = st) := by
  refine ⟨?_, ?_, ?_⟩
  · intro st hs es he hhs hes hne
    have hx : isEventLine (es.getLast hne) = true := hes _ (List.getLast_mem hne)
    have hdecomp : st.entries = (hs ++ es.dropLast) ++ [es.getLast hne] := by
      rw [he, List.append_assoc, List.dropLast_append_getLast hne]
    exact undo_of_concat st _ _ hx hdecomp
  · intro st ts text
    have hx : isEventLine ((append_entry st ts text).2) = true := by
      rw [append_entry_line]
      exact isEventLine_append_line _ _
    exact undo_of_concat _ st.entries _ hx (append_entry_entries st ts text)
  · intro st h
    have h0 := undo_of_no_event st h
    refine ⟨h0, ?_⟩
    intro n
    induction n with
    | zero => rfl
    | succ n ih =>
      rw [Function.iterate_succ_apply, show (undo st).1 = st from by rw [h0]]
      exact ih

/-- Witness for C3 at concrete inputs. -/
theorem C3_undo_exact_inverse_witness :
    (undo { baseState with entries :=
        ["## Events".data, "- [00:00:01] MARK".data] }).1.entries =
      ["## Events".data] ∧
    (undo { baseState with entries :=
        ["## Events".data, "- [00:00:01] MARK".data] }).2 =
      some ("- [00:00:01] MARK".data) ∧
    undo baseState = (baseState, none) :=
  ⟨(C3_undo_exact_inverse.1 _ (["## Events".data]) (["- [00:00:01] MARK".data])
      rfl (by decide) (by decide) (by decide)).1,
   (C3_undo_exact_inverse.1 _ (["## Events".data]) (["- [00:00:01] MARK".data])
      rfl (by decide) (by decide) (by decide)).2,
   (C3_undo_exact_inverse.2.2 baseState (by decide)).1⟩

/-- C4 counterexample: with an active configuration that differs from the
built-in defaults (`c4State` has an empty macro list), reloading from a
malformed config file does not leave the previously active key mappings
and macro list unchanged — `reload_config` replaces the whole config. -/
theorem C4_reload_counterexample :
    (reload_config c4State ConfigFile.malformed).config ≠ c4State.config := by
  decide

/-- C4 (amended): reloading from a missing or malformed config file
replaces the active configuration with the built-in defaults and clears
the loaded flag, so the previously active key mappings and macro list are
preserved exactly when they already equal the defaults; all session state
is untouched and the reload handler emits exactly one notice. -/
theorem C4_reload_falls_back_to_defaults (st : Logger) (f : ConfigFile)
    (h : f = ConfigFile.missing ∨ f = ConfigFile.malformed) :
    (reloadHandler st f).1.config = DEFAULT_CONFIG ∧
    (reloadHandler st f).1.config_loaded = false ∧
    (st.config = DEFAULT_CONFIG → (reloadHandler st f).1.config = st.config) ∧
    (reloadHandler st f).1.entries = st.entries ∧
    (reloadHandler st f).1.fileData = st.fileData ∧
    (reloadHandler st f).1.recording_index = st.recording_index ∧
    (reloadHandler st f).1.current_task = st.current_task ∧
    (reloadHandler st f).2.length = 1 := by
  rcases h with rfl | rfl <;>
    exact ⟨rfl, rfl, fun hd => by rw [hd]; rfl, rfl, rfl, rfl, rfl, rfl⟩

/-- Witness for the amended C4 at concrete inputs. -/
theorem C4_reload_falls_back_to_defaults_witness :
    (reloadHandler c4State ConfigFile.malformed).1.config = DEFAULT_CONFIG ∧
    (reloadHandler c4State ConfigFile.malformed).1.config_loaded = false ∧
    (c4State.config = DEFAULT_CONFIG →
      (reloadHandler c4State ConfigFile.malformed).1.config = c4State.config) ∧
    (reloadHandler c4State ConfigFile.malformed).1.entries = c4State.entries ∧
    (reloadHandler c4State ConfigFile.malformed).1.fileData = c4State.fileData ∧
    (reloadHandler c4State ConfigFile.malformed).1.recording_index =
      c4State.recording_index ∧
    (reloadHandler c4State ConfigFile.malformed).1.current_task =
      c4State.current_task ∧
    (reloadHandler c4State ConfigFile.malformed).2.length = 1 :=
  C4_reload_falls_back_to_defaults c4State ConfigFile.malformed (Or.inr rfl)

/-- C5: the liquid type answer `"1"` maps to `water`, `"2"` to
`diluted juice`, anything else is used verbatim; the composed entry is
`LIQUID: <amount> mL (<type>)` when both (trimmed) answers are nonempty,
`LIQUID: <amount> mL` when the type is empty, bare `LIQUID` when both are
empty; the entry is always nonempty; and the three listed concrete shapes
evaluate as the spec states. -/
theorem C5_liquid_composition :
    mappedLiquidType ("1".data) = "water".data ∧
    mappedLiquidType ("2".data) = "diluted juice".data ∧
    (∀ t : Str, t ≠ "1".data → t ≠ "2".data → mappedLiquidType t = t) ∧
    (∀ a t : Str, pyStrip a ≠ [] → mappedLiquidType (pyStrip t) ≠ [] →
      liquid_entry a t = "LIQUID: ".data ++ pyStrip a ++ " mL (".data ++
        mappedLiquidType (pyStrip t) ++ ")".data) ∧
    (∀ a t : Str, pyStrip a ≠ [] → pyStrip t = [] →
      liquid_entry a t = "LIQUID: ".data ++ pyStrip a ++ " mL".data) ∧
    (∀ a t : Str, pyStrip a = [] → pyStrip t = [] →
      liquid_entry a t = "LIQUID".data) ∧
    (∀ a t : Str, liquid_entry a t ≠ []) ∧
    liquid_entry ("5".data) ("1".data) = "LIQUID: 5 mL (water)".data ∧
    liquid_entry ("3".data) [] = "LIQUID: 3 mL".data ∧
    liquid_entry [] [] = "LIQUID".data := by
  refine ⟨by decide, by decide, ?_, ?_, ?_, ?_, ?_, by decide, by decide, by decide⟩
  · intro t h1 h2
    unfold mappedLiquidType
    rw [if_neg h1, if_neg h2]
  · intro a t ha ht
    unfold liquid_entry
    rw [if_pos ⟨ha, ht⟩]
  · intro a t ha ht
    unfold liquid_entry
    rw [ht]
    rw [show mappedLiquidType [] = [] from by decide]
    simp [ha]
  · intro a t ha ht
    unfold liquid_entry
    rw [ha, ht]
    rw [show mappedLiquidType [] = [] from by decide]
    simp
  · intro a t
    simp only [liquid_entry]
    split
    · simp
    · split
      · simp
      · simp

/-- Witness for C5 at concrete inputs. -/
theorem C5_liquid_composition_witness :
    mappedLiquidType ("juice".data) = "juice".data ∧
    liquid_entry ("5".data) (" 1 ".data) = "LIQUID: ".data ++ pyStrip ("5".data) ++
      " mL (".data ++ mappedLiquidType (pyStrip (" 1 ".data)) ++ ")".data ∧
    liquid_entry ("3".data) ("  ".data) = "LIQUID: ".data ++ pyStrip ("3".data) ++
      " mL".data ∧
    liquid_entry (" ".data) ("".data) = "LIQUID".data :=
  ⟨C5_liquid_composition.2.2.1 _ (by decide) (by decide),
   C5_liquid_composition.2.2.2.1 _ _ (by decide) (by decide),
   C5_liquid_composition.2.2.2.2.1 _ _ (by decide) (by decide),
   C5_liquid_composition.2.2.2.2.2.1 _ _ (by decide) (by decide)⟩

/-- C6 counterexample: `c6State` has two macros sharing the key `"x"`, the
earlier with text `EVENT A`, the later with text `EVENT B`. Dispatching
`"x"` does not append the later-defined entry's text — it appends the
earlier one's. -/
theorem C6_later_wins_counterexample :
    ((macroScan c6State ("x".data) [] [] ("00:00:00".data)).1).entries ≠
      c6State.entries ++ ["- [00:00:00] EVENT B".data] ∧
    ((macroScan c6State ("x".data) [] [] ("00:00:00".data)).1).entries =
      c6State.entries ++ ["- [00:00:00] EVENT A".data] :=
  ⟨by decide, by decide⟩

/-- C6 (amended): on duplicate keys the earlier-defined entry in
configuration order wins: macros are matched in list order and the first
match stops the scan, so when no earlier macro matches the key, the first
matching macro is the one executed (for a plain macro, its effective text
is rendered and appended). -/
theorem C6_earlier_defined_wins (st : Logger) (ms1 : List MacroEntry)
    (m : MacroEntry) (ms2 : List MacroEntry) (key ta tr ts : Str)
    (hcfg : st.config.macros = ms1 ++ m :: ms2)
    (h1 : ∀ m' ∈ ms1, ¬ m'.key = key) (h2 : m.key = key)
    (h3 : pyUpper (pyStrip (effText m)) ≠ "START TASK".data)
    (h4 : pyUpper (pyStrip (effText m)) ≠ "STOP TASK".data)
    (h5 : effText m ≠ []) :
    macroScan st key ta tr ts = ((append_entry st ts (effText m)).1, true) := by
  unfold macroScan
  rw [hcfg, lookupKey_first ms1 m ms2 key h1 h2]
  simp only [if_neg h3, if_neg h4, if_pos h5]

/-- Witness for the amended C6 at concrete inputs. -/
theorem C6_earlier_defined_wins_witness :
    macroScan c6State ("x".data) [] [] ("00:00:00".data) =
      ((append_entry c6State ("00:00:00".data)
        (effText ⟨"x".data, some ("A".data), some ("EVENT A".data)⟩)).1, true) :=
  C6_earlier_defined_wins c6State []
    ⟨"x".data, some ("A".data), some ("EVENT A".data)⟩
    [⟨"x".data, some ("B".data), some ("EVENT B".data)⟩]
    ("x".data) [] [] ("00:00:00".data) rfl (by decide) (by decide)
    (by decide) (by decide) (by decide)

/-- C7: when the pressed key's first matching macro has effective text
whose trimmed upper-cased form is `STOP TASK`, the handler appends
`STOP TASK: <task>` using `UNKNOWN` when no task is set, with the trimmed
trials answer appended in square brackets exactly when it is nonempty,
reports the key as matched, and leaves `current_task` and the recording
counter unchanged. -/
theorem C7_stop_task (st : Logger) (key ta tr ts : Str) (m : MacroEntry)
    (hlook : lookupKey st.config.macros key = some m)
    (h : pyUpper (pyStrip (effText m)) = "STOP TASK".data) :
    (macroScan st key ta tr ts).2 = true ∧
    (macroScan st key ta tr ts).1.entries = st.entries ++
      ["- [".data ++ ts ++ "] ".data ++ ("STOP TASK: ".data ++
        (pyOrStr st.current_task ("UNKNOWN".data) ++
          (if pyStrip tr ≠ [] then " [".data ++ pyStrip tr ++ "]".data else [])))] ∧
    (macroScan st key ta tr ts).1.current_task = st.current_task ∧
    (macroScan st key ta tr ts).1.recording_index = st.recording_index := by
  have hne1 : pyUpper (pyStrip (effText m)) ≠ "START TASK".data := by
    rw [h]; decide
  have key0 : macroScan st key ta tr ts =
      ((append_entry st ts ("STOP TASK: ".data ++
        (pyOrStr st.current_task ("UNKNOWN".data) ++
          (if pyStrip tr ≠ [] then " [".data ++ pyStrip tr ++ "]".data else [])))).1,
       true) := by
    unfold macroScan
    rw [hlook]
    simp only [if_neg hne1, if_pos h]
    by_cases htr : pyStrip tr ≠ []
    · simp only [if_pos htr]
      congr 2
      simp [List.append_assoc]
    · simp only [if_neg htr]
      congr 2
      simp [List.append_assoc]
  rw [key0]
  exact ⟨rfl, (append_entry_stopTask st ts _).1,
    append_entry_current_task st ts _, (append_entry_stopTask st ts _).2⟩

/-- Witness for C7 at concrete inputs: no active task with empty trials
gives `STOP TASK: UNKNOWN`; task `reach` with trials `12/3` gives
`STOP TASK: reach [12/3]` (default config, key `"4"`). -/
theorem C7_stop_task_witness :
    ((macroScan baseState ("4".data) [] ("  ".data) ("01:00:00".data)).1.entries =
      baseState.entries ++
        ["- [".data ++ "01:00:00".data ++ "] ".data ++ ("STOP TASK: ".data ++
          (pyOrStr baseState.current_task ("UNKNOWN".data) ++
            (if pyStrip ("  ".data) ≠ [] then
              " [".data ++ pyStrip ("  ".data) ++ "]".data else [])))]) ∧
    ((macroScan { baseState with current_task := some ("reach".data) }
        ("4".data) [] ("12/3".data) ("01:00:00".data)).1.entries =
      { baseState with current_task := some ("reach".data) }.entries ++
        ["- [".data ++ "01:00:00".data ++ "] ".data ++ ("STOP TASK: ".data ++
          (pyOrStr { baseState with
              current_task := some ("reach".data) }.current_task ("UNKNOWN".data) ++
            (if pyStrip ("12/3".data) ≠ [] then
              " [".data ++ pyStrip ("12/3".data) ++ "]".data else [])))]) ∧
    (macroScan { baseState with current_task := some ("reach".data) }
        ("4".data) [] ("12/3".data) ("01:00:00".data)).1.current_task =
      { baseState with current_task := some ("reach".data) }.current_task :=
  ⟨(C7_stop_task baseState ("4".data) [] ("  ".data) ("01:00:00".data)
      ⟨"4".data, some ("STOP TASK".data), some ("STOP TASK".data)⟩
      (by decide) (by decide)).2.1,
   (C7_stop_task { baseState with current_task := some ("reach".data) }
      ("4".data) [] ("12/3".data) ("01:00:00".data)
      ⟨"4".data, some ("STOP TASK".data), some ("STOP TASK".data)⟩
      (by decide) (by decide)).2.1,
   (C7_stop_task { baseState with current_task := some ("reach".data) }
      ("4".data) [] ("12/3".data) ("01:00:00".data)
      ⟨"4".data, some ("STOP TASK".data), some ("STOP TASK".data)⟩
      (by decide) (by decide)).2.2.1⟩

/-- C8: sanitization keeps letters, digits, `-`, `_`, `.`, maps every
space to `_` and every other character to `_` (characterized pointwise by
`sanChar` over the stripped input), falls back to the fixed token
`unknown` when the input is empty after cleaning; `"Jane Doe!"` sanitizes
to `Jane_Doe_`; and for nonempty identifiers the session filename is
`<YYMMDD>_<sanitized-behaviorist>_<sanitized-subject>.md`. -/
theorem C8_sanitize_filename :
    (∀ s : Str, sanitize s =
      if pyStrip s = [] then "unknown".data else (pyStrip s).map sanChar) ∧
    sanitize ("Jane Doe!".data) = "Jane_Doe_".data ∧
    sanitize ("   ".data) = "unknown".data ∧
    (∀ (st : Logger) (ds fd br ar wr nr ts : Str),
      pyStrip br ≠ [] → pyStrip ar ≠ [] →
      (start_session st ds fd br ar wr nr ts).file_path =
        some (fd ++ "_".data ++ sanitize (pyStrip br) ++ "_".data ++
          sanitize (pyStrip ar) ++ ".md".data)) := by
  refine ⟨sanitize_eq, by decide, by decide, ?_⟩
  intro st ds fd br ar wr nr ts hbr har
  rw [start_session_eq]
  simp [sessionFilename, namePart, hbr, har, List.append_assoc]

/-- Witness for C8 at concrete inputs. -/
theorem C8_sanitize_filename_witness :
    sanitize ("a b!".data) =
      (if pyStrip ("a b!".data) = [] then "unknown".data
        else (pyStrip ("a b!".data)).map sanChar) ∧
    (start_session baseState ("2026-10-12".data) ("261012".data)
        ("Jane Doe!".data) ("M1".data) [] [] ("10:00:00".data)).file_path =
      some ("261012".data ++ "_".data ++ sanitize (pyStrip ("Jane Doe!".data)) ++
        "_".data ++ sanitize (pyStrip ("M1".data)) ++ ".md".data) :=
  ⟨C8_sanitize_filename.1 ("a b!".data),
   C8_sanitize_filename.2.2.2 baseState _ _ _ _ _ _ _ (by decide) (by decide)⟩

/-- C9: when the trimmed amount answer is empty and the trimmed type
answer is nonempty, the liquid handler returns bare `LIQUID`, silently
discarding the entered type. -/
theorem C9_liquid_discards_type (a t : Str) (ha : pyStrip a = [])
    (_ht : pyStrip t ≠ []) : liquid_entry a t = "LIQUID".data := by
  simp only [liquid_entry]
  rw [ha]
  simp

/-- Witness for C9 at concrete inputs. -/
theorem C9_liquid_discards_type_witness :
    liquid_entry (" ".data) ("water".data) = "LIQUID".data :=
  C9_liquid_discards_type (" ".data) ("water".data) (by decide) (by decide)

/-- C10: a pressed key whose first matching macro has empty-or-missing
text and label is treated as matched (so `main` prints no "Unknown key"
feedback), yet nothing is appended and the whole session state — entries,
file, recording counter, current task — is unchanged. -/
theorem C10_empty_macro_silently_matches (st : Logger) (key ta tr ts : Str)
    (m : MacroEntry) (hlook : lookupKey st.config.macros key = some m)
    (heff : effText m = []) :
    macroScan st key ta tr ts = (st, true) := by
  unfold macroScan
  rw [hlook]
  simp only [heff]
  rw [show pyUpper (pyStrip ([] : Str)) = [] from rfl]
  simp

/-- Witness for C10 at concrete inputs. -/
theorem C10_empty_macro_silently_matches_witness :
    macroScan c10State ("z".data) [] [] ("00:00:00".data) = (c10State, true) :=
  C10_empty_macro_silently_matches c10State ("z".data) [] [] ("00:00:00".data)
    ⟨"z".data, none, none⟩ (by decide) (by decide)

end LabLog
